import Mathlib

set_option linter.unusedVariables false
set_option maxRecDepth 100000
set_option maxHeartbeats 1000000

namespace Vest

/-! Shallow embedding of the Exercise Monitoring Vest core
(`EXERCISE_VEST_MAIN.ino`): the three per-signal feature extractors
(`ECGProcessor`, `RespiratoryProcessor`, `GSRProcessor`) together with the
storage boundary of `setup()` / `logData()`.

Conventions used throughout:
* C++ `int` / `long` values are modelled as `Int`; array indices and
  `millis()` timestamps as `Nat`.  Timestamps are assumed monotone and far
  from 32-bit wraparound, as on any realistic session of this device.
* C++ integer division truncates toward zero; it is modelled by `Int.tdiv`.
* The C++ double expressions `v * 0.6`, `v * 0.8`, `v * 0.5` followed by a
  truncating assignment to `int` are modelled by exact rational truncation:
  `a + r*0.6` becomes `(5*a + 3*r).tdiv 5`, `a - r*0.8` becomes
  `(5*a - 4*r).tdiv 5`, `b ± sd*0.5` becomes `(2*b ± sd).tdiv 2`.  Over the
  10-bit ADC value range of this device these agree exactly with IEEE double
  evaluation (the fractional parts are multiples of 1/5 or 1/2, far from the
  1e-13 rounding noise of the doubles involved).
* `(int)sqrt(x)` applied to a nonnegative integer-valued double is `Nat.sqrt`.
* A `dbz` ghost flag (present in no source struct) records whether a division
  with a zero divisor was ever executed by the interval-averaging code; it is
  written exactly where the source divides and read by no source logic. -/

/-- Sum of the populated interval slots: the `sum` accumulated by the
`if (intervals[i] > 0) { sum += intervals[i]; count++; }` loops
(lines 120–127 for the ECG, lines 214–221 for the respiratory band). -/
def sumPos (l : List Int) : Int := (l.filter (fun x => 0 < x)).sum

/-- Count of the populated interval slots (same loops). -/
def countPos (l : List Int) : Int := ((l.filter (fun x => 0 < x)).length : Int)

/-- The interval-averager slice of a processor's state: the last event
timestamp (`lastPeakTime` / `lastBreathTime`), the 10-slot interval ring and
its write index, the current rate output, and the `dbz` ghost flag. -/
structure AvgAcc where
  lastTime : Nat
  intervals : List Int
  index : Nat
  rate : Int
  dbz : Bool
deriving Repr, DecidableEq

/-- Lines 109–134 (ECG, `lo = 300`, `hi = 2000`) and lines 203–228
(respiratory, `lo = 1500`, `hi = 10000`): on a detection event at time `now`,
if a previous event timestamp exists, form the candidate interval
`now - lastTime`; admit it only when strictly between `lo` and `hi`; on
admission store it in the ring, advance the ring index, and when at least one
populated slot exists recompute `rate = 60000 / (sum / count)` over the
populated slots.  In every case the event timestamp becomes `now`.  The
second component reports the candidate interval and its admission flag
(`none` when no previous event timestamp existed, so no candidate arises). -/
def intervalUpdate (lo hi : Int) (now : Nat) (a : AvgAcc) : AvgAcc × Option (Int × Bool) :=
  if 0 < a.lastTime then
    let iv : Int := (now : Int) - (a.lastTime : Int)
    if lo < iv ∧ iv < hi then
      let ints := a.intervals.set a.index iv
      let idx := (a.index + 1) % 10
      if 0 < countPos ints then
        let avg := Int.tdiv (sumPos ints) (countPos ints)
        ({ lastTime := now, intervals := ints, index := idx,
           rate := Int.tdiv 60000 avg,
           dbz := a.dbz || decide (countPos ints = 0) || decide (avg = 0) },
         some (iv, true))
      else
        ({ lastTime := now, intervals := ints, index := idx, rate := a.rate, dbz := a.dbz },
         some (iv, true))
    else
      ({ a with lastTime := now }, some (iv, false))
  else
    ({ a with lastTime := now }, none)

/-- Source `struct ECGProcessor` (lines 47–142), plus the `dbz` ghost flag. -/
structure ECGState where
  ecgBuffer : List Int
  bufferIndex : Nat
  lastPeakTime : Nat
  rrIntervals : List Int
  rrIndex : Nat
  currentHeartRate : Int
  peakThreshold : Int
  signalMin : Int
  signalMax : Int
  leadOff : Bool
  inPeak : Bool
  peakValue : Int
  dbz : Bool
deriving Repr, DecidableEq

/-- The global `ECGProcessor ecgProc;` as zero-initialized static storage with
the member initializers of lines 49–67. -/
def ecgInit : ECGState :=
  { ecgBuffer := List.replicate 100 0, bufferIndex := 0, lastPeakTime := 0,
    rrIntervals := List.replicate 10 0, rrIndex := 0, currentHeartRate := 0,
    peakThreshold := 600, signalMin := 1023, signalMax := 0,
    leadOff := false, inPeak := false, peakValue := 0, dbz := false }

/-- Line 83: `if (rawValue < signalMin) signalMin = rawValue;`. -/
def runningMin (s : ECGState) (rawValue : Int) : Int :=
  if rawValue < s.signalMin then rawValue else s.signalMin

/-- Line 84: `if (rawValue > signalMax) signalMax = rawValue;`. -/
def runningMax (s : ECGState) (rawValue : Int) : Int :=
  if rawValue > s.signalMax then rawValue else s.signalMax

/-- Source `ECGProcessor::processECGSample` (lines 69–137).  `loPlus` and
`loMinus` are the two lead-contact reads of line 71 (`true` = disconnected).
The second component is the candidate RR interval produced at a peak exit
with its admission flag, when one arises. -/
def processECGSample (s : ECGState) (loPlus loMinus : Bool) (rawValue : Int) (now : Nat) :
    ECGState × Option (Int × Bool) :=
  if loPlus || loMinus then
    ({ s with leadOff := true, currentHeartRate := 0 }, none)
  else
    let buf := s.ecgBuffer.set s.bufferIndex rawValue
    let bi := (s.bufferIndex + 1) % 100
    let sMin := runningMin s rawValue
    let sMax := runningMax s rawValue
    let tms :=
      if bi = 0 then
        let range := sMax - sMin
        let thr := Int.tdiv (5 * sMin + 3 * range) 5
        let nMin := Int.tdiv (5 * sMax - 4 * range) 5
        let nMax := Int.tdiv (5 * nMin + 4 * range) 5
        (thr, nMin, nMax)
      else (s.peakThreshold, sMin, sMax)
    let thr := tms.1
    if thr < rawValue ∧ s.inPeak = false then
      ({ s with
        leadOff := false, ecgBuffer := buf, bufferIndex := bi,
        signalMin := tms.2.1, signalMax := tms.2.2, peakThreshold := thr,
        inPeak := true, peakValue := rawValue }, none)
    else if s.inPeak then
      if s.peakValue < rawValue then
        ({ s with
            leadOff := false, ecgBuffer := buf, bufferIndex := bi,
            signalMin := tms.2.1, signalMax := tms.2.2, peakThreshold := thr,
            peakValue := rawValue }, none)
      else if rawValue < thr then
        let upd := intervalUpdate 300 2000 now
          { lastTime := s.lastPeakTime, intervals := s.rrIntervals, index := s.rrIndex,
            rate := s.currentHeartRate, dbz := s.dbz }
        ({ s with
            leadOff := false, ecgBuffer := buf, bufferIndex := bi,
            signalMin := tms.2.1, signalMax := tms.2.2, peakThreshold := thr,
            inPeak := false, lastPeakTime := upd.1.lastTime, rrIntervals := upd.1.intervals,
            rrIndex := upd.1.index, currentHeartRate := upd.1.rate, dbz := upd.1.dbz }, upd.2)
      else
        ({ s with
            leadOff := false, ecgBuffer := buf, bufferIndex := bi,
            signalMin := tms.2.1, signalMax := tms.2.2, peakThreshold := thr }, none)
    else
      ({ s with
          leadOff := false, ecgBuffer := buf, bufferIndex := bi,
          signalMin := tms.2.1, signalMax := tms.2.2, peakThreshold := thr }, none)

/-- Source `ECGProcessor::getHeartRate` (line 139). -/
def ECGState.getHeartRate (s : ECGState) : Int :=
  if s.leadOff then 0 else s.currentHeartRate

/-- Source `ECGProcessor::getRawValue` (line 141). -/
def ECGState.getRawValue (s : ECGState) : Int :=
  s.ecgBuffer.getD ((s.bufferIndex + 100 - 1) % 100) 0

/-- One scheduler-dispatched ECG sample: input is
(loPlus, loMinus, rawValue, now). -/
def ecgStep (s : ECGState) (x : Bool × Bool × Int × Nat) : ECGState :=
  (processECGSample s x.1 x.2.1 x.2.2.1 x.2.2.2).1

/-- Run the ECG extractor from power-on over a sample sequence. -/
def ecgRun (l : List (Bool × Bool × Int × Nat)) : ECGState := l.foldl ecgStep ecgInit

/-- Candidate-RR-interval event trace of an ECG run. -/
def ecgTraceFrom (s : ECGState) : List (Bool × Bool × Int × Nat) → List (Option (Int × Bool))
  | [] => []
  | x :: xs =>
    let p := processECGSample s x.1 x.2.1 x.2.2.1 x.2.2.2
    p.2 :: ecgTraceFrom p.1 xs

/-- Candidate-RR-interval event trace from power-on. -/
def ecgTrace (l : List (Bool × Bool × Int × Nat)) : List (Option (Int × Bool)) :=
  ecgTraceFrom ecgInit l

/-- Source `enum BreathState` (line 152). -/
inductive BreathState
  | INHALE
  | EXHALE
  | HOLD
deriving Repr, DecidableEq

/-- Source `struct RespiratoryProcessor` (lines 145–241), plus the `dbz` ghost flag. -/
structure RespState where
  respBuffer : List Int
  bufferIndex : Nat
  currentState : BreathState
  lastState : BreathState
  lastBreathTime : Nat
  breathIntervals : List Int
  breathIndex : Nat
  currentBreathRate : Int
  baseline : Int
  inhaleThreshold : Int
  exhaleThreshold : Int
  dbz : Bool
deriving Repr, DecidableEq

/-- The global `RespiratoryProcessor respProc;` with the member initializers
of lines 147–164. -/
def respInit : RespState :=
  { respBuffer := List.replicate 60 0, bufferIndex := 0,
    currentState := .HOLD, lastState := .HOLD, lastBreathTime := 0,
    breathIntervals := List.replicate 10 0, breathIndex := 0, currentBreathRate := 0,
    baseline := 512, inhaleThreshold := 530, exhaleThreshold := 494, dbz := false }

/-- Lines 172–189: on a window-fill, recompute `baseline = mean(buffer)`,
`stdDev = (int)sqrt(variance / 60)` and the threshold pair
`baseline ± stdDev * 0.5` (truncating). -/
def respWindowStats (buf : List Int) : Int × Int × Int :=
  let baseline := Int.tdiv buf.sum 60
  let variance := (buf.map (fun x => (x - baseline) * (x - baseline))).sum
  let stdDev : Int := (Nat.sqrt (Int.tdiv variance 60).toNat : Int)
  (baseline, Int.tdiv (2 * baseline + stdDev) 2, Int.tdiv (2 * baseline - stdDev) 2)

/-- Lines 194–200: phase classification of one sample against the current
threshold pair. -/
def respClassify (rawValue inh exh : Int) : BreathState :=
  if inh < rawValue then .INHALE
  else if rawValue < exh then .EXHALE
  else .HOLD

/-- Source `RespiratoryProcessor::processRespSample` (lines 166–230).  The second
component is `true` exactly when the breath-cycle branch of line 203
(`currentState == INHALE && lastState == EXHALE`) is taken. -/
def processRespSample (s : RespState) (rawValue : Int) (now : Nat) : RespState × Bool :=
  let buf := s.respBuffer.set s.bufferIndex rawValue
  let bi := (s.bufferIndex + 1) % 60
  let stats := if bi = 0 then respWindowStats buf
               else (s.baseline, s.inhaleThreshold, s.exhaleThreshold)
  let lastSt := s.currentState
  let phase := respClassify rawValue stats.2.1 stats.2.2
  let flag : Bool := phase == BreathState.INHALE && lastSt == BreathState.EXHALE
  let acc : AvgAcc := { lastTime := s.lastBreathTime, intervals := s.breathIntervals,
                        index := s.breathIndex, rate := s.currentBreathRate, dbz := s.dbz }
  let acc' := if flag then (intervalUpdate 1500 10000 now acc).1 else acc
  ({ respBuffer := buf, bufferIndex := bi, currentState := phase, lastState := lastSt,
     lastBreathTime := acc'.lastTime, breathIntervals := acc'.intervals,
     breathIndex := acc'.index, currentBreathRate := acc'.rate,
     baseline := stats.1, inhaleThreshold := stats.2.1, exhaleThreshold := stats.2.2,
     dbz := acc'.dbz }, flag)

/-- Source `RespiratoryProcessor::getBreathRate` (line 232). -/
def RespState.getBreathRate (s : RespState) : Int := s.currentBreathRate

/-- Source `RespiratoryProcessor::getRawValue` (line 233). -/
def RespState.getRawValue (s : RespState) : Int :=
  s.respBuffer.getD ((s.bufferIndex + 60 - 1) % 60) 0

/-- The clock-independent slice of the respiratory state: buffer, write
cursor, window statistics and the phase just computed.  Lines 166–200 write
exactly these fields before the breath-interval block runs, and compute them
without reading `millis()` or any field outside this slice. -/
structure RespCore where
  respBuffer : List Int
  bufferIndex : Nat
  baseline : Int
  inhaleThreshold : Int
  exhaleThreshold : Int
  currentState : BreathState
deriving Repr, DecidableEq

/-- Projection of the full respiratory state onto its clock-independent
slice. -/
def RespState.core (s : RespState) : RespCore :=
  ⟨s.respBuffer, s.bufferIndex, s.baseline, s.inhaleThreshold, s.exhaleThreshold,
   s.currentState⟩

/-- One scheduler-dispatched respiratory sample: input is (rawValue, now). -/
def respStep (s : RespState) (x : Int × Nat) : RespState :=
  (processRespSample s x.1 x.2).1

/-- Run the respiratory extractor from power-on over a sample sequence. -/
def respRun (l : List (Int × Nat)) : RespState := l.foldl respStep respInit

/-- Per-call phase trace of a respiratory run started at `s`. -/
def respPhasesFrom (s : RespState) : List (Int × Nat) → List BreathState
  | [] => []
  | x :: xs =>
    let s' := (processRespSample s x.1 x.2).1
    s'.currentState :: respPhasesFrom s' xs

/-- Per-call phase trace from power-on. -/
def respPhases (l : List (Int × Nat)) : List BreathState := respPhasesFrom respInit l

/-- Per-call breath-cycle detection flags of a run started at `s`. -/
def respFlagsFrom (s : RespState) : List (Int × Nat) → List Bool
  | [] => []
  | x :: xs =>
    let p := processRespSample s x.1 x.2
    p.2 :: respFlagsFrom p.1 xs

/-- Per-call breath-cycle detection flags from power-on. -/
def respFlags (l : List (Int × Nat)) : List Bool := respFlagsFrom respInit l

/-- Per-call breath-rate output trace (what `getBreathRate` returns after
each call) of a run started at `s`. -/
def respRatesFrom (s : RespState) : List (Int × Nat) → List Int
  | [] => []
  | x :: xs =>
    let s' := (processRespSample s x.1 x.2).1
    s'.currentBreathRate :: respRatesFrom s' xs

/-- Per-call breath-rate output trace from power-on. -/
def respRates (l : List (Int × Nat)) : List Int := respRatesFrom respInit l

/-- Source `struct GSRProcessor` (lines 244–312). -/
structure GSRState where
  gsrBuffer : List Int
  bufferIndex : Nat
  baseline : Int
  smoothedValue : Int
  sweatLevel : Int
  calibrated : Bool
  calibrationSamples : Nat
deriving Repr, DecidableEq

/-- The global `GSRProcessor gsrProc;` with the member initializers of
lines 246–257. -/
def gsrInit : GSRState :=
  { gsrBuffer := List.replicate 30 0, bufferIndex := 0, baseline := 0,
    smoothedValue := 0, sweatLevel := 0, calibrated := false, calibrationSamples := 0 }

/-- Lines 284–292: the four sweat bands over `delta = smoothed - baseline`. -/
def classifyDelta (delta : Int) : Int :=
  if delta < 10 then 0
  else if delta < 30 then 1
  else if delta < 60 then 2
  else 3

/-- Source `GSRProcessor::processGSRSample` (lines 259–298).  `now` is the
`millis()` read of line 295. -/
def processGSRSample (s : GSRState) (rawValue : Int) (now : Nat) : GSRState :=
  let buf := s.gsrBuffer.set s.bufferIndex rawValue
  let bi := (s.bufferIndex + 1) % 30
  let smoothed := Int.tdiv buf.sum 30
  if s.calibrated = false then
    let cs := s.calibrationSamples + 1
    if 50 ≤ cs then
      { s with
          gsrBuffer := buf, bufferIndex := bi, smoothedValue := smoothed,
          calibrationSamples := cs, baseline := smoothed, calibrated := true }
    else
      { s with
          gsrBuffer := buf, bufferIndex := bi, smoothedValue := smoothed,
          calibrationSamples := cs }
  else
    let delta := smoothed - s.baseline
    let sweat := classifyDelta delta
    let base' := if now % 60000 = 0 then Int.tdiv (s.baseline * 99 + smoothed) 100
                 else s.baseline
    { s with
        gsrBuffer := buf, bufferIndex := bi, smoothedValue := smoothed,
        sweatLevel := sweat, baseline := base' }

/-- One scheduler-dispatched GSR sample: input is (rawValue, now). -/
def gsrStep (s : GSRState) (x : Int × Nat) : GSRState := processGSRSample s x.1 x.2

/-- Run the GSR extractor from power-on over a sample sequence. -/
def gsrRun (l : List (Int × Nat)) : GSRState := l.foldl gsrStep gsrInit

/-- Source `GSRProcessor::getRawValue` (line 301). -/
def GSRState.getRawValue (s : GSRState) : Int :=
  s.gsrBuffer.getD ((s.bufferIndex + 30 - 1) % 30) 0

/-- Outcome of the storage branch of `setup()`. -/
inductive SetupOutcome
  | halted
  | ready
deriving Repr, DecidableEq

/-- Lines 344–348 of `setup()`: `if (!SD.begin(SD_CS)) { ... while(1); }` —
a failed SD-card initialization loops forever (modelled as `halted`);
otherwise startup proceeds. -/
def setupStorage (sdOk : Bool) : SetupOutcome :=
  if sdOk then .ready else .halted

/-- The three extractor states held by the global instances (lines 315–317). -/
structure SystemState where
  ecg : ECGState
  resp : RespState
  gsr : GSRState
deriving Repr, DecidableEq

/-- Source `logData()` (lines 497–528): attempt to open the session file; on success
write the row `millis, HR, RR, sweat, ecgRaw, respRaw, gsrSmoothed` and close
it; on failure print an error.  Either way the function returns and touches
no processor state; the second component is the row that reached storage
(`none` when the open failed and the row was dropped). -/
def logData (sys : SystemState) (now : Nat) (fileOk : Bool) : SystemState × Option (List Int) :=
  if fileOk then
    (sys, some [(now : Int), sys.ecg.getHeartRate, sys.resp.getBreathRate,
                sys.gsr.sweatLevel, sys.ecg.getRawValue, sys.resp.getRawValue,
                sys.gsr.smoothedValue])
  else
    (sys, none)


/-! Concrete sample sequences used by the counterexamples and witnesses. -/

/-- Four clean cardiac samples producing two peak exits whose second
candidate RR interval is exactly 300 ms: a peak (700 at t = 10 ms) exited at
t = 20 ms, and a peak (700 at t = 100 ms) exited at t = 320 ms. -/
def c2Inputs : List (Bool × Bool × Int × Nat) :=
  [(false, false, 700, 10), (false, false, 100, 20),
   (false, false, 700, 100), (false, false, 100, 320)]

/-- One full cardiac buffer window: one sample of 500 followed by 99 samples
of 502, so the window statistics at the wrap are min 500, max 502, range 2. -/
def c6Inputs : List (Bool × Bool × Int × Nat) :=
  (false, false, 500, 0) :: List.replicate 99 (false, false, 502, 0)

/-- Respiratory samples 400, 600, 400, 600 (EXHALE, INHALE, EXHALE, INHALE
against the initial thresholds 530/494) with the second EXHALE→INHALE
transition 2000 ms after the first. -/
def c4SameSamples1 : List (Int × Nat) := [(400, 0), (600, 100), (400, 200), (600, 2100)]

/-- The same respiratory samples 400, 600, 400, 600, but with the second
EXHALE→INHALE transition only 200 ms after the first. -/
def c4SameSamples2 : List (Int × Nat) := [(400, 0), (600, 100), (400, 200), (600, 300)]

/-- Respiratory samples classifying as EXHALE, HOLD, INHALE against the
initial thresholds 530/494. -/
def c1Hold : List (Int × Nat) := [(400, 1000), (500, 2000), (600, 3000)]

/-- Fifty GSR calibration samples of value 100 at 200 ms spacing. -/
def c7Calib : List (Int × Nat) := (List.range 50).map (fun k => (100, 200 * (k + 1)))

/-- A further 301 GSR samples of value 400 at 200 ms spacing starting at
millis() = 60001: they span more than one minute of wall time and no sample
time is a multiple of 60000 (all are odd). -/
def c7Drift : List (Int × Nat) := (List.range 301).map (fun k => (400, 60001 + 200 * k))

/-- Exactly fifty GSR samples of value 200. -/
def c9L50 : List (Int × Nat) := (List.range 50).map (fun k => (200, 200 * (k + 1)))

/-- A cardiac state in mid-peak with a previous peak exit at t = 20 ms, used
to instantiate the RR-admission theorem concretely. -/
def c2WitState : ECGState :=
  { ecgInit with inPeak := true, peakValue := 700, lastPeakTime := 20 }

/-- A cardiac state one sample before a window wrap with running min 500 and
max 600 (range 100, a multiple of 5). -/
def c6WitState : ECGState :=
  { ecgInit with bufferIndex := 99, signalMin := 500, signalMax := 600 }

/-- A GSR state that has completed calibration (all other fields as at
power-on). -/
def c3WitState : GSRState := { gsrInit with calibrated := true }

/-! Invariants carried by the interval averagers. -/

/-- Every interval slot is either unpopulated (0) or a stored interval
strictly above the lower admission bound; the ring has its 10 slots and a
valid write index; no zero-divisor division has occurred. -/
def avgInv (lo : Int) (a : AvgAcc) : Prop :=
  a.intervals.length = 10 ∧ a.index < 10 ∧
  (∀ x ∈ a.intervals, x = 0 ∨ lo < x) ∧ a.dbz = false

/-- The interval-averager invariant, read off an `ECGState`. -/
def ecgInv (s : ECGState) : Prop :=
  s.rrIntervals.length = 10 ∧ s.rrIndex < 10 ∧
  (∀ x ∈ s.rrIntervals, x = 0 ∨ 300 < x) ∧ s.dbz = false

/-- The interval-averager invariant, read off a `RespState`. -/
def respInv (s : RespState) : Prop :=
  s.breathIntervals.length = 10 ∧ s.breathIndex < 10 ∧
  (∀ x ∈ s.breathIntervals, x = 0 ∨ 1500 < x) ∧ s.dbz = false

/-! Helper lemmas. -/

theorem countPos_pos_of_mem {l : List Int} {x : Int} (hx : x ∈ l) (hpos : 0 < x) :
    0 < countPos l := by
  unfold countPos
  have hmem : x ∈ l.filter (fun y => 0 < y) := List.mem_filter.mpr ⟨hx, by simpa using hpos⟩
  have hne : l.filter (fun y => 0 < y) ≠ [] := List.ne_nil_of_mem hmem
  have hlen : 0 < (l.filter (fun y => 0 < y)).length := List.length_pos.mpr hne
  exact_mod_cast hlen

theorem countPos_le_sumPos (l : List Int) : countPos l ≤ sumPos l := by
  unfold countPos sumPos
  induction l with
  | nil => simp
  | cons x xs ih =>
    by_cases h : 0 < x
    · rw [List.filter_cons_of_pos (by simpa using h)]
      simp only [List.length_cons, List.sum_cons]
      push_cast
      omega
    · rw [List.filter_cons_of_neg (by simpa using h)]
      exact ih


theorem one_le_tdiv_of_le {a b : Int} (hb : 0 < b) (hba : b ≤ a) : 1 ≤ a.tdiv b := by
  have ha : 0 ≤ a := le_trans (le_of_lt hb) hba
  rw [Int.tdiv_eq_ediv ha (le_of_lt hb)]
  exact (Int.le_ediv_iff_mul_le hb).mpr (by omega)

theorem intervalUpdate_inv (lo hi : Int) (hlo : 0 ≤ lo) (now : Nat) (a : AvgAcc)
    (h : avgInv lo a) : avgInv lo (intervalUpdate lo hi now a).1 := by
  obtain ⟨hlen, hidx, helem, hdbz⟩ := h
  simp only [intervalUpdate]
  split_ifs with h1 h2 h3
  · have hcle := countPos_le_sumPos (a.intervals.set a.index ((now : Int) - (a.lastTime : Int)))
    have havg : 1 ≤ Int.tdiv
        (sumPos (a.intervals.set a.index ((now : Int) - (a.lastTime : Int))))
        (countPos (a.intervals.set a.index ((now : Int) - (a.lastTime : Int)))) :=
      one_le_tdiv_of_le h3 hcle
    refine ⟨by rw [List.length_set]; exact hlen, Nat.mod_lt _ (by norm_num), ?_, ?_⟩
    · intro x hx
      rcases List.mem_or_eq_of_mem_set hx with hmem | heq
      · exact helem x hmem
      · right
        rw [heq]
        exact h2.1
    · simp only [hdbz, Bool.false_or, Bool.or_eq_false_iff, decide_eq_false_iff_not]
      omega
  · refine ⟨by rw [List.length_set]; exact hlen, Nat.mod_lt _ (by norm_num), ?_, hdbz⟩
    intro x hx
    rcases List.mem_or_eq_of_mem_set hx with hmem | heq
    · exact helem x hmem
    · right
      rw [heq]
      exact h2.1
  · exact ⟨hlen, hidx, helem, hdbz⟩
  · exact ⟨hlen, hidx, helem, hdbz⟩

theorem processECGSample_inv (s : ECGState) (loPlus loMinus : Bool) (rawValue : Int)
    (now : Nat) (h : ecgInv s) :
    ecgInv (processECGSample s loPlus loMinus rawValue now).1 := by
  obtain ⟨hlen, hidx, helem, hdbz⟩ := h
  have hupd := intervalUpdate_inv 300 2000 (by norm_num) now
      ⟨s.lastPeakTime, s.rrIntervals, s.rrIndex, s.currentHeartRate, s.dbz⟩
      ⟨hlen, hidx, helem, hdbz⟩
  simp only [processECGSample]
  split_ifs <;>
    first
      | exact ⟨hlen, hidx, helem, hdbz⟩
      | exact ⟨hupd.1, hupd.2.1, hupd.2.2.1, hupd.2.2.2⟩

theorem processRespSample_inv (s : RespState) (rawValue : Int) (now : Nat)
    (h : respInv s) : respInv (processRespSample s rawValue now).1 := by
  obtain ⟨hlen, hidx, helem, hdbz⟩ := h
  have hupd := intervalUpdate_inv 1500 10000 (by norm_num) now
      ⟨s.lastBreathTime, s.breathIntervals, s.breathIndex, s.currentBreathRate, s.dbz⟩
      ⟨hlen, hidx, helem, hdbz⟩
  simp only [processRespSample]
  split_ifs <;>
    first
      | exact ⟨hlen, hidx, helem, hdbz⟩
      | exact ⟨hupd.1, hupd.2.1, hupd.2.2.1, hupd.2.2.2⟩

theorem ecgFold_inv (l : List (Bool × Bool × Int × Nat)) (s : ECGState) (h : ecgInv s) :
    ecgInv (l.foldl ecgStep s) := by
  induction l generalizing s with
  | nil => exact h
  | cons x xs ih =>
    exact ih (ecgStep s x) (processECGSample_inv s x.1 x.2.1 x.2.2.1 x.2.2.2 h)

theorem respFold_inv (l : List (Int × Nat)) (s : RespState) (h : respInv s) :
    respInv (l.foldl respStep s) := by
  induction l generalizing s with
  | nil => exact h
  | cons x xs ih =>
    exact ih (respStep s x) (processRespSample_inv s x.1 x.2 h)

/-! Claim theorems. -/

/-- C5 (confirmed): when either lead-contact signal indicates disconnection,
`processECGSample` sets the lead-off flag, forces the heart-rate output
(`getHeartRate`) to 0, and performs no further processing: the ring buffer,
running min/max, peak threshold, stored RR intervals, last-peak timestamp,
in-peak state and peak-value accumulator are all left unchanged, so peak
detection resumes from preserved history on reconnection (lines 71–75
and 139). -/
theorem lead_off_frame (s : ECGState) (loPlus loMinus : Bool) (rawValue : Int)
    (now : Nat) (h : loPlus = true ∨ loMinus = true) :
    processECGSample s loPlus loMinus rawValue now
        = ({ s with leadOff := true, currentHeartRate := 0 }, none) ∧
    (processECGSample s loPlus loMinus rawValue now).1.getHeartRate = 0 ∧
    (processECGSample s loPlus loMinus rawValue now).1.leadOff = true ∧
    (processECGSample s loPlus loMinus rawValue now).1.ecgBuffer = s.ecgBuffer ∧
    (processECGSample s loPlus loMinus rawValue now).1.bufferIndex = s.bufferIndex ∧
    (processECGSample s loPlus loMinus rawValue now).1.signalMin = s.signalMin ∧
    (processECGSample s loPlus loMinus rawValue now).1.signalMax = s.signalMax ∧
    (processECGSample s loPlus loMinus rawValue now).1.peakThreshold = s.peakThreshold ∧
    (processECGSample s loPlus loMinus rawValue now).1.rrIntervals = s.rrIntervals ∧
    (processECGSample s loPlus loMinus rawValue now).1.rrIndex = s.rrIndex ∧
    (processECGSample s loPlus loMinus rawValue now).1.lastPeakTime = s.lastPeakTime ∧
    (processECGSample s loPlus loMinus rawValue now).1.inPeak = s.inPeak ∧
    (processECGSample s loPlus loMinus rawValue now).1.peakValue = s.peakValue := by
  have hb : (loPlus || loMinus) = true := by rcases h with h | h <;> simp [h]
  simp [processECGSample, hb, ECGState.getHeartRate]

/-- Witness: the lead-off frame theorem applied to a disconnected sample at
the power-on state. -/
theorem lead_off_frame_witness :
    (processECGSample ecgInit true false 512 3).1.getHeartRate = 0 ∧
    (processECGSample ecgInit true false 512 3).1.rrIntervals = ecgInit.rrIntervals :=
  ⟨(lead_off_frame ecgInit true false 512 3 (Or.inl rfl)).2.1,
   (lead_off_frame ecgInit true false 512 3 (Or.inl rfl)).2.2.2.2.2.2.2.2.1⟩

/-- C3 (confirmed): after calibration, the per-sample classification maps
`delta = smoothed - baseline` to the sweat level by the bands
DRY (< 10), LOW ([10, 30)), MED ([30, 60)), HIGH (≥ 60); in particular
deltas 9, 10, 29, 30, 59, 60 map to 0, 1, 1, 2, 2, 3 (lines 281–292). -/
theorem gsr_classification_bands (s : GSRState) (rawValue : Int) (now : Nat)
    (h : s.calibrated = true) :
    (processGSRSample s rawValue now).sweatLevel
        = classifyDelta ((processGSRSample s rawValue now).smoothedValue - s.baseline) ∧
    (∀ d : Int,
      (classifyDelta d = 0 ↔ d < 10) ∧
      (classifyDelta d = 1 ↔ 10 ≤ d ∧ d < 30) ∧
      (classifyDelta d = 2 ↔ 30 ≤ d ∧ d < 60) ∧
      (classifyDelta d = 3 ↔ 60 ≤ d)) ∧
    classifyDelta 9 = 0 ∧ classifyDelta 10 = 1 ∧ classifyDelta 29 = 1 ∧
    classifyDelta 30 = 2 ∧ classifyDelta 59 = 2 ∧ classifyDelta 60 = 3 := by
  refine ⟨?_, ?_, by decide, by decide, by decide, by decide, by decide, by decide⟩
  · simp [processGSRSample, h]
  · intro d
    unfold classifyDelta
    refine ⟨?_, ?_, ?_, ?_⟩ <;> split_ifs <;> omega

/-- Witness: the classification theorem applied to a calibrated state. -/
theorem gsr_classification_bands_witness :
    (processGSRSample c3WitState 0 1).sweatLevel
        = classifyDelta ((processGSRSample c3WitState 0 1).smoothedValue
            - c3WitState.baseline) ∧
    classifyDelta 60 = 3 :=
  ⟨(gsr_classification_bands c3WitState 0 1 rfl).1,
   (gsr_classification_bands c3WitState 0 1 rfl).2.2.2.2.2.2.2⟩

/-- C8 counterexample: if SD-card initialization fails at startup, `setup()`
enters `while(1)` (line 346) and the core never produces a metric — storage
failure does halt signal processing, contrary to the claim. -/
theorem sd_init_failure_halts :
    setupStorage false = SetupOutcome.halted ∧
    SetupOutcome.halted ≠ SetupOutcome.ready :=
  ⟨rfl, by decide⟩

/-- C8 (amended): a log-file open failure during a logging tick leaves every
processor state untouched and merely drops the row (lines 498–527), and a
successful SD initialization lets startup proceed; only the startup SD
failure halts. -/
theorem log_failure_preserves_processing (sys : SystemState) (now : Nat) (fileOk : Bool) :
    (logData sys now fileOk).1 = sys ∧
    ((logData sys now fileOk).2.isSome ↔ fileOk = true) ∧
    setupStorage true = SetupOutcome.ready := by
  unfold logData setupStorage
  cases fileOk <;> simp

/-- C7 (code bug): the baseline-adaptation guard of line 295
(`millis() % 60000 == 0`) fires only when a GSR sample happens to be
processed in the single millisecond per minute at which `millis()` is an
exact multiple of 60000.  Here, a calibrated processor (baseline 100) is
sampled every 200 ms at the odd timestamps 60001, 60201, ..., 120001 —
more than a full minute of wall time — and the baseline never adapts
(it stays 100 although the smoothed value is 400 and one weighted-average
nudge would have moved it to 103). -/
theorem gsr_baseline_never_adapts_on_odd_millis :
    (gsrRun c7Calib).calibrated = true ∧
    (gsrRun c7Calib).baseline = 100 ∧
    (gsrRun (c7Calib ++ c7Drift)).baseline = 100 ∧
    (gsrRun (c7Calib ++ c7Drift)).smoothedValue = 400 ∧
    Int.tdiv (100 * 99 + 400) 100 = 103 ∧
    (∀ x ∈ c7Drift, x.2 % 60000 ≠ 0) ∧
    60000 ≤ 60001 + 200 * 300 - 60001 := by
  refine ⟨by decide, by decide, by decide, by decide, by decide, by decide, by decide⟩

/-- C2 counterexample: on the run `c2Inputs` the second peak exit computes a
candidate RR interval of exactly 300 ms, which lies in the closed interval
[300, 2000]; yet the strict comparison `rrInterval > 300` of line 115
rejects it, so the stored intervals and the heart rate stay at their initial
values — refuting admission on the closed interval. -/
theorem rr_boundary_300_rejected :
    ecgTrace c2Inputs = [none, none, none, some (300, false)] ∧
    ((300 : Int) ≥ 300 ∧ (300 : Int) ≤ 2000) ∧
    (ecgRun c2Inputs).rrIntervals = List.replicate 10 0 ∧
    (ecgRun c2Inputs).currentHeartRate = 0 := by
  refine ⟨by decide, by decide, by decide, by decide⟩

/-- C6 counterexample: after one full buffer window with min 500 and
max 502 (range 2), the recomputed threshold is 501 but the re-seeded band is
[500, 501]: its width is 1 rather than 0.8 × 2 = 1.6 and its midpoint is
500.5, not the threshold — so the integer code does not re-seed to a band of
width exactly 0.8 × (max − min) centered on the new threshold. -/
theorem threshold_band_not_centered :
    (ecgRun c6Inputs).bufferIndex = 0 ∧
    (ecgRun c6Inputs).peakThreshold = 501 ∧
    (ecgRun c6Inputs).signalMin = 500 ∧
    (ecgRun c6Inputs).signalMax = 501 ∧
    2 * (ecgRun c6Inputs).peakThreshold
        ≠ (ecgRun c6Inputs).signalMin + (ecgRun c6Inputs).signalMax ∧
    5 * ((ecgRun c6Inputs).signalMax - (ecgRun c6Inputs).signalMin) ≠ 4 * 2 := by
  refine ⟨by decide, by decide, by decide, by decide, by decide, by decide⟩

/-- C4 counterexample: the two runs `c4SameSamples1` and `c4SameSamples2`
feed the identical raw sample sequence 400, 600, 400, 600 from a reset state
and produce the identical phase sequence, yet their breath-rate output
sequences differ (30 bpm vs 0 bpm after the fourth call) because the breath
interval is measured with `millis()` timestamps — the rate output is not
independent of wall-clock time. -/
theorem resp_rate_depends_on_clock :
    c4SameSamples1.map Prod.fst = c4SameSamples2.map Prod.fst ∧
    respPhases c4SameSamples1 = respPhases c4SameSamples2 ∧
    respRates c4SameSamples1 = [0, 0, 0, 30] ∧
    respRates c4SameSamples2 = [0, 0, 0, 0] ∧
    respRates c4SameSamples1 ≠ respRates c4SameSamples2 := by
  refine ⟨by decide, by decide, by decide, by decide, by decide⟩


theorem intervalUpdate_event (lo hi : Int) (hlo : 0 ≤ lo) (now : Nat) (a : AvgAcc)
    (b : AvgAcc) (iv : Int) (acc : Bool) (hlen : a.intervals.length = 10)
    (hidx : a.index < 10)
    (h : intervalUpdate lo hi now a = (b, some (iv, acc))) :
    iv = (now : Int) - (a.lastTime : Int) ∧
    (acc = true ↔ lo < iv ∧ iv < hi) ∧
    (acc = false → b.intervals = a.intervals ∧ b.index = a.index ∧ b.rate = a.rate) ∧
    (acc = true → b.intervals = a.intervals.set a.index iv ∧
        0 < countPos b.intervals ∧
        b.rate = Int.tdiv 60000 (Int.tdiv (sumPos b.intervals) (countPos b.intervals))) := by
  simp only [intervalUpdate] at h
  split_ifs at h with h1 h2 h3
  · obtain ⟨hb, hev⟩ := Prod.mk.injEq _ _ _ _ |>.mp h
    obtain ⟨hiv, hacc⟩ := Prod.mk.injEq _ _ _ _ |>.mp (Option.some.injEq _ _ |>.mp hev)
    subst hiv
    subst hacc
    subst hb
    refine ⟨rfl, by simp [h2], by intro hc; exact absurd hc (by simp), ?_⟩
    intro _
    exact ⟨rfl, h3, rfl⟩
  · exfalso
    apply h3
    have hlt : a.index < (a.intervals.set a.index ((now : Int) - (a.lastTime : Int))).length := by
      rw [List.length_set, hlen]
      exact hidx
    have hget := List.getElem_set_self (l := a.intervals) (i := a.index)
        (a := (now : Int) - (a.lastTime : Int)) hlt
    have hm := List.getElem_mem hlt
    rw [hget] at hm
    exact countPos_pos_of_mem hm (by omega)
  · obtain ⟨hb, hev⟩ := Prod.mk.injEq _ _ _ _ |>.mp h
    obtain ⟨hiv, hacc⟩ := Prod.mk.injEq _ _ _ _ |>.mp (Option.some.injEq _ _ |>.mp hev)
    subst hiv
    subst hacc
    subst hb
    refine ⟨rfl, by simp [h2], by intro _; exact ⟨rfl, rfl, rfl⟩, ?_⟩
    intro hc
    exact absurd hc (by simp)
  · simp at h

theorem respCore_congr (s₁ s₂ : RespState) (rawValue : Int) (n₁ n₂ : Nat)
    (h : s₁.core = s₂.core) :
    (processRespSample s₁ rawValue n₁).1.core = (processRespSample s₂ rawValue n₂).1.core := by
  have h1 : s₁.respBuffer = s₂.respBuffer := congrArg RespCore.respBuffer h
  have h2 : s₁.bufferIndex = s₂.bufferIndex := congrArg RespCore.bufferIndex h
  have h3 : s₁.baseline = s₂.baseline := congrArg RespCore.baseline h
  have h4 : s₁.inhaleThreshold = s₂.inhaleThreshold := congrArg RespCore.inhaleThreshold h
  have h5 : s₁.exhaleThreshold = s₂.exhaleThreshold := congrArg RespCore.exhaleThreshold h
  have h6 : s₁.currentState = s₂.currentState := congrArg RespCore.currentState h
  simp only [processRespSample, RespState.core, h1, h2, h3, h4, h5, h6]

theorem respPhasesFrom_congr :
    ∀ (l₁ l₂ : List (Int × Nat)), l₁.map Prod.fst = l₂.map Prod.fst →
    ∀ (s₁ s₂ : RespState), s₁.core = s₂.core →
      respPhasesFrom s₁ l₁ = respPhasesFrom s₂ l₂ := by
  intro l₁
  induction l₁ with
  | nil =>
    intro l₂ hmap
    cases l₂ with
    | nil => intro _ _ _; rfl
    | cons y ys => simp at hmap
  | cons x xs ih =>
    intro l₂ hmap
    cases l₂ with
    | nil => simp at hmap
    | cons y ys =>
      intro s₁ s₂ hcore
      simp only [List.map_cons, List.cons.injEq] at hmap
      obtain ⟨hxy, hmap2⟩ := hmap
      have hstep := respCore_congr s₁ s₂ x.1 x.2 y.2 hcore
      simp only [respPhasesFrom]
      rw [← hxy]
      exact congrArg₂ List.cons (congrArg RespCore.currentState hstep)
        (ih ys hmap2 _ _ hstep)

theorem gsr_calib_progress (l : List (Int × Nat)) (s : GSRState)
    (hc : s.calibrated = false) (hlt : s.calibrationSamples + l.length < 50) :
    (l.foldl gsrStep s).calibrated = false ∧
    (l.foldl gsrStep s).sweatLevel = s.sweatLevel ∧
    (l.foldl gsrStep s).calibrationSamples = s.calibrationSamples + l.length := by
  induction l generalizing s with
  | nil => exact ⟨hc, rfl, rfl⟩
  | cons x xs ih =>
    simp only [List.length_cons] at hlt
    have hnot : ¬ 50 ≤ s.calibrationSamples + 1 := by omega
    have hstep : (gsrStep s x).calibrated = false ∧
        (gsrStep s x).sweatLevel = s.sweatLevel ∧
        (gsrStep s x).calibrationSamples = s.calibrationSamples + 1 := by
      simp [gsrStep, processGSRSample, hc, hnot]
    simp only [List.foldl_cons]
    have hxs := ih (gsrStep s x) hstep.1 (by rw [hstep.2.2]; omega)
    refine ⟨hxs.1, ?_, ?_⟩
    · rw [hxs.2.1, hstep.2.1]
    · rw [hxs.2.2, hstep.2.2]
      simp only [List.length_cons]
      omega

theorem gsr_calib_completion (l : List (Int × Nat)) (s : GSRState)
    (hc : s.calibrated = false) (hpos : 0 < l.length)
    (heq : s.calibrationSamples + l.length = 50) :
    (l.foldl gsrStep s).calibrated = true ∧
    (l.foldl gsrStep s).baseline = (l.foldl gsrStep s).smoothedValue ∧
    (l.foldl gsrStep s).sweatLevel = s.sweatLevel := by
  induction l generalizing s with
  | nil => simp at hpos
  | cons x xs ih =>
    simp only [List.length_cons] at heq
    simp only [List.foldl_cons]
    by_cases hdone : 50 ≤ s.calibrationSamples + 1
    · have hxs : xs = [] := by
        cases xs with
        | nil => rfl
        | cons y ys =>
          exfalso
          simp only [List.length_cons] at heq
          omega
      subst hxs
      simp only [List.foldl_nil]
      simp [gsrStep, processGSRSample, hc, hdone]
    · have hstep : (gsrStep s x).calibrated = false ∧
          (gsrStep s x).sweatLevel = s.sweatLevel ∧
          (gsrStep s x).calibrationSamples = s.calibrationSamples + 1 := by
        simp [gsrStep, processGSRSample, hc, hdone]
      have hxs := ih (gsrStep s x) hstep.1 (by omega) (by rw [hstep.2.2]; omega)
      exact ⟨hxs.1, hxs.2.1, by rw [hxs.2.2, hstep.2.1]⟩

/-- C1 (confirmed): a breath-cycle detection fires on a respiratory sample
exactly when the phase computed for that call is INHALE and the phase
computed for the immediately preceding call (held in `lastState`) was EXHALE
(line 203); when it does not fire, the breath timestamp, interval ring and
breath-rate output are untouched, so no breath is counted; and the concrete
HOLD-mediated sequence EXHALE, HOLD, INHALE fires no detection and counts no
breath. -/
theorem breath_counted_iff_exhale_to_inhale :
    (∀ (s : RespState) (rawValue : Int) (now : Nat),
      ((processRespSample s rawValue now).2 = true ↔
        ((processRespSample s rawValue now).1.currentState = BreathState.INHALE ∧
         s.currentState = BreathState.EXHALE)) ∧
      ((processRespSample s rawValue now).2 = false →
        (processRespSample s rawValue now).1.lastBreathTime = s.lastBreathTime ∧
        (processRespSample s rawValue now).1.breathIntervals = s.breathIntervals ∧
        (processRespSample s rawValue now).1.breathIndex = s.breathIndex ∧
        (processRespSample s rawValue now).1.currentBreathRate = s.currentBreathRate)) ∧
    respPhases c1Hold = [BreathState.EXHALE, BreathState.HOLD, BreathState.INHALE] ∧
    respFlags c1Hold = [false, false, false] ∧
    (respRun c1Hold).breathIntervals = List.replicate 10 0 ∧
    (respRun c1Hold).currentBreathRate = 0 ∧
    (respRun c1Hold).lastBreathTime = 0 := by
  refine ⟨fun s rawValue now => ⟨?_, ?_⟩, by decide, by decide, by decide, by decide, by decide⟩
  · simp only [processRespSample]
    simp [Bool.and_eq_true, beq_iff_eq]
  · intro hf
    simp only [processRespSample] at hf ⊢
    simp [hf]

/-- Witness: the detection biconditional and frame applied to the power-on
state fed a single EXHALE-classified sample. -/
theorem breath_counted_iff_exhale_to_inhale_witness :
    (processRespSample respInit 400 5).2 = false ∧
    (processRespSample respInit 400 5).1.breathIntervals = respInit.breathIntervals := by
  have h := breath_counted_iff_exhale_to_inhale.1 respInit 400 5
  have hf : (processRespSample respInit 400 5).2 = false := by decide
  exact ⟨hf, (h.2 hf).2.1⟩

/-- C2 (amended): every candidate RR interval computed at a peak exit is
admitted to the interval ring exactly when it lies strictly inside
(300 ms, 2000 ms) (the strict comparisons of line 115; the endpoints 300 and
2000 are rejected); a rejected candidate leaves the stored intervals, ring
index and reported heart rate unchanged; an admitted candidate is stored and
the heart rate becomes 60000 / (sum / count) over the populated slots. -/
theorem rr_interval_admission (s : ECGState) (loPlus loMinus : Bool) (rawValue : Int)
    (now : Nat) (s2 : ECGState) (iv : Int) (acc : Bool)
    (hlen : s.rrIntervals.length = 10) (hidx : s.rrIndex < 10)
    (hrun : processECGSample s loPlus loMinus rawValue now = (s2, some (iv, acc))) :
    (acc = true ↔ 300 < iv ∧ iv < 2000) ∧
    (acc = false → s2.rrIntervals = s.rrIntervals ∧ s2.rrIndex = s.rrIndex ∧
        s2.currentHeartRate = s.currentHeartRate) ∧
    (acc = true → s2.rrIntervals = s.rrIntervals.set s.rrIndex iv ∧
        0 < countPos s2.rrIntervals ∧
        s2.currentHeartRate
          = Int.tdiv 60000 (Int.tdiv (sumPos s2.rrIntervals) (countPos s2.rrIntervals))) := by
  simp only [processECGSample] at hrun
  split_ifs at hrun <;>
    first
    | (rw [Prod.mk.injEq] at hrun
       exact Option.noConfusion hrun.2)
    | (obtain ⟨hs2, hev⟩ := Prod.mk.injEq _ _ _ _ |>.mp hrun
       have hevent := intervalUpdate_event 300 2000 (by norm_num) now
           ⟨s.lastPeakTime, s.rrIntervals, s.rrIndex, s.currentHeartRate, s.dbz⟩
           (intervalUpdate 300 2000 now
             ⟨s.lastPeakTime, s.rrIntervals, s.rrIndex, s.currentHeartRate, s.dbz⟩).1
           iv acc hlen hidx (by rw [← hev])
       subst hs2
       exact ⟨hevent.2.1, fun hacc => hevent.2.2.1 hacc, fun hacc => hevent.2.2.2 hacc⟩)

/-- Witness: the admission theorem at a concrete peak exit whose candidate
interval is exactly 300 ms and is rejected. -/
theorem rr_interval_admission_witness :
    (processECGSample c2WitState false false 100 320).1.rrIntervals
        = c2WitState.rrIntervals ∧
    (false = true ↔ (300 : Int) < 300 ∧ (300 : Int) < 2000) := by
  have h := rr_interval_admission c2WitState false false 100 320
      (processECGSample c2WitState false false 100 320).1 300 false
      (by decide) (by decide) (by decide)
  exact ⟨(h.2.1 rfl).1, h.1⟩

/-- C4 (amended): the per-call phase sequence of the respiratory extractor
is a function of the raw sample sequence alone — two runs from the reset
state over inputs with identical sample values but arbitrary differing
`millis()` timestamps produce identical phase sequences.  (The breath-rate
output sequence, by contrast, genuinely depends on the timestamps, as the
associated counterexample shows.) -/
theorem resp_phases_clock_independent (l₁ l₂ : List (Int × Nat))
    (h : l₁.map Prod.fst = l₂.map Prod.fst) :
    respPhases l₁ = respPhases l₂ :=
  respPhasesFrom_congr l₁ l₂ h respInit respInit rfl

/-- Witness: the phase-invariance theorem at the two concrete timestamped
runs of the counterexample. -/
theorem resp_phases_clock_independent_witness :
    respPhases c4SameSamples1 = respPhases c4SameSamples2 :=
  resp_phases_clock_independent c4SameSamples1 c4SameSamples2 (by decide)

/-- C6 (amended): on every sample that completes a 100-sample buffer window
(and not on any other sample) the peak threshold is recomputed; writing
mn, mx for the updated running min/max, the integer code sets the threshold
to mn + ⌊0.6·(mx−mn)⌋ and re-seeds [signalMin, signalMax]; whenever the
range mx − mn is a multiple of 5 — so the 0.6/0.8 fractions are exact —
the re-seeded band ends at mx, has width exactly 0.8·(mx−mn), and is exactly
centered on the new threshold (lines 86–94).  (For ranges not divisible
by 5 the truncations spoil the exact width/centering, as the associated
counterexample shows.) -/
theorem threshold_recompute_window (s : ECGState) (rawValue : Int) (now : Nat) :
    ((s.bufferIndex + 1) % 100 ≠ 0 →
        (processECGSample s false false rawValue now).1.peakThreshold = s.peakThreshold) ∧
    ((s.bufferIndex + 1) % 100 = 0 →
      ∀ k : Int, runningMax s rawValue - runningMin s rawValue = 5 * k →
        (processECGSample s false false rawValue now).1.peakThreshold
            = runningMin s rawValue + 3 * k ∧
        (processECGSample s false false rawValue now).1.signalMin
            = runningMax s rawValue - 4 * k ∧
        (processECGSample s false false rawValue now).1.signalMax
            = runningMax s rawValue ∧
        10 * ((processECGSample s false false rawValue now).1.signalMax
              - (processECGSample s false false rawValue now).1.signalMin)
            = 8 * (runningMax s rawValue - runningMin s rawValue) ∧
        2 * (processECGSample s false false rawValue now).1.peakThreshold
            = (processECGSample s false false rawValue now).1.signalMin
              + (processECGSample s false false rawValue now).1.signalMax) := by
  constructor
  · intro hne
    simp only [processECGSample, Bool.or_self, Bool.false_eq_true, if_false, if_neg hne]
    split_ifs <;> simp
  · intro hw k hk
    have e1 : 5 * runningMin s rawValue + 3 * (runningMax s rawValue - runningMin s rawValue)
        = 5 * (runningMin s rawValue + 3 * k) := by rw [hk]; ring
    have e2 : 5 * runningMax s rawValue - 4 * (runningMax s rawValue - runningMin s rawValue)
        = 5 * (runningMax s rawValue - 4 * k) := by rw [hk]; ring
    have d1 : Int.tdiv (5 * runningMin s rawValue
        + 3 * (runningMax s rawValue - runningMin s rawValue)) 5
        = runningMin s rawValue + 3 * k := by
      rw [e1, Int.mul_tdiv_cancel_left _ (by norm_num)]
    have d2 : Int.tdiv (5 * runningMax s rawValue
        - 4 * (runningMax s rawValue - runningMin s rawValue)) 5
        = runningMax s rawValue - 4 * k := by
      rw [e2, Int.mul_tdiv_cancel_left _ (by norm_num)]
    have e3 : 5 * (runningMax s rawValue - 4 * k)
        + 4 * (runningMax s rawValue - runningMin s rawValue)
        = 5 * runningMax s rawValue := by rw [hk]; ring
    have hmx : Int.tdiv (5 * (Int.tdiv (5 * runningMax s rawValue
        - 4 * (runningMax s rawValue - runningMin s rawValue)) 5)
        + 4 * (runningMax s rawValue - runningMin s rawValue)) 5
        = runningMax s rawValue := by
      rw [d2, e3, Int.mul_tdiv_cancel_left _ (by norm_num)]
    have hband : (processECGSample s false false rawValue now).1.peakThreshold
          = runningMin s rawValue + 3 * k ∧
        (processECGSample s false false rawValue now).1.signalMin
          = runningMax s rawValue - 4 * k ∧
        (processECGSample s false false rawValue now).1.signalMax
          = runningMax s rawValue := by
      simp only [processECGSample, Bool.or_self, Bool.false_eq_true, if_false, if_pos hw]
      split_ifs <;> exact ⟨d1, d2, hmx⟩
    refine ⟨hband.1, hband.2.1, hband.2.2, ?_, ?_⟩
    · rw [hband.2.1, hband.2.2]
      omega
    · rw [hband.1, hband.2.1, hband.2.2]
      omega

/-- Witness: the recompute theorem at a window wrap with min 500, max 600
(range 100 = 5 × 20): threshold 560, band re-seeded to [520, 600]. -/
theorem threshold_recompute_window_witness :
    (processECGSample c6WitState false false 550 7).1.peakThreshold = 560 ∧
    (processECGSample c6WitState false false 550 7).1.signalMin = 520 ∧
    (processECGSample c6WitState false false 550 7).1.signalMax = 600 := by
  have h := (threshold_recompute_window c6WitState 550 7).2 (by decide) 20 (by decide)
  refine ⟨?_, ?_, ?_⟩
  · rw [h.1]; decide
  · rw [h.2.1]; decide
  · rw [h.2.2.1]; decide

/-- C9 (confirmed): while fewer than 50 samples have been seen the GSR
extractor stays uncalibrated and classification is withheld (the sweat level
keeps its power-on value 0); the 50th sample completes calibration, setting
baseline to the then-current smoothed value (so smoothed = baseline holds
and the withheld sweat level 0 = DRY is consistent with it); and once
calibrated the extractor never leaves calibrated mode (lines 252–279). -/
theorem gsr_calibration_phase :
    (∀ l : List (Int × Nat), l.length < 50 →
        (gsrRun l).calibrated = false ∧ (gsrRun l).sweatLevel = 0) ∧
    (∀ l : List (Int × Nat), l.length = 50 →
        (gsrRun l).calibrated = true ∧
        (gsrRun l).baseline = (gsrRun l).smoothedValue ∧
        (gsrRun l).sweatLevel = 0) ∧
    (∀ (s : GSRState) (rawValue : Int) (now : Nat),
        s.calibrated = true → (processGSRSample s rawValue now).calibrated = true) := by
  refine ⟨?_, ?_, ?_⟩
  · intro l hl
    have h := gsr_calib_progress l gsrInit rfl (by simp only [gsrInit]; omega)
    exact ⟨h.1, h.2.1⟩
  · intro l hl
    have h := gsr_calib_completion l gsrInit rfl (by omega) (by simp only [gsrInit]; omega)
    exact ⟨h.1, h.2.1, h.2.2⟩
  · intro s rawValue now h
    simp [processGSRSample, h]

/-- Witness: the calibration theorem at the concrete 50-sample run `c9L50`
and at the empty (length 0 < 50) run. -/
theorem gsr_calibration_phase_witness :
    (gsrRun c9L50).calibrated = true ∧
    (gsrRun c9L50).baseline = (gsrRun c9L50).smoothedValue ∧
    (gsrRun []).calibrated = false :=
  ⟨(gsr_calibration_phase.2.1 c9L50 (by decide)).1,
   (gsr_calibration_phase.2.1 c9L50 (by decide)).2.1,
   (gsr_calibration_phase.1 [] (by decide)).1⟩

/-- C10 (confirmed): on every input sequence, every populated interval slot
of either averager holds a strictly positive stored interval, the average is
computed only when at least one populated slot exists, and the quotient fed
to the 60000 / avg division is then itself positive — so neither the
averaging division nor the rate division ever executes with a zero divisor
(the `dbz` ghost flag, raised at the exact source division sites when a
divisor is zero, stays false on all runs of both extractors). -/
theorem no_division_by_zero (lE : List (Bool × Bool × Int × Nat)) (lR : List (Int × Nat)) :
    (ecgRun lE).dbz = false ∧ (respRun lR).dbz = false :=
  ⟨(ecgFold_inv lE ecgInit (by refine ⟨by decide, by decide, by decide, by decide⟩)).2.2.2,
   (respFold_inv lR respInit (by refine ⟨by decide, by decide, by decide, by decide⟩)).2.2.2⟩

end Vest
